import Mathlib

/-!
Shallow embedding of the MindWell mood/journal tracker
(client page component and the generate-insight API route),
with theorems checking the specified properties of the
save-then-annotate workflow, the scoped list reads and deletes,
and the input-trimming behaviour.
-/

namespace MindWell

/-! ## Model of JavaScript string trimming -/

/-- Whitespace predicate used to model the characters removed by the
JavaScript trim method on strings. -/
def wsChar (c : Char) : Bool := c.isWhitespace

/-- Drop leading whitespace characters. -/
def trimLeftList (l : List Char) : List Char := l.dropWhile wsChar

/-- Drop trailing whitespace characters. -/
def trimRightList (l : List Char) : List Char := (l.reverse.dropWhile wsChar).reverse

/-- Trim both ends, as the JavaScript trim method does. -/
def jsTrimList (l : List Char) : List Char := trimRightList (trimLeftList l)

/-- Model of the JavaScript trim method on strings. -/
def jsTrim (s : String) : String := ⟨jsTrimList s.data⟩

/-! ## Data model (tables mood_entries and journal_entries) -/

/-- A row of the mood_entries table. -/
structure MoodEntry where
  id : String
  user_id : String
  mood : String
  note : Option String
  created_at : Nat

/-- A row of the journal_entries table. -/
structure JournalEntry where
  id : String
  user_id : String
  content : String
  ai_insight : Option String
  created_at : Nat

/-- The two collections held by the backend data store. -/
structure Store where
  mood_entries : List MoodEntry
  journal_entries : List JournalEntry

deriving instance DecidableEq for MoodEntry
deriving instance DecidableEq for JournalEntry
deriving instance DecidableEq for Store

/-! ## Ordering used by the list reads (created_at descending) -/

/-- Descending creation-time order on mood entries. -/
def byCreatedDescM (a b : MoodEntry) : Prop := b.created_at ≤ a.created_at

/-- Descending creation-time order on journal entries. -/
def byCreatedDescJ (a b : JournalEntry) : Prop := b.created_at ≤ a.created_at

instance : DecidableRel byCreatedDescM :=
  fun a b => Nat.decLe b.created_at a.created_at

instance : DecidableRel byCreatedDescJ :=
  fun a b => Nat.decLe b.created_at a.created_at

instance : IsTotal MoodEntry byCreatedDescM :=
  ⟨fun a b => Nat.le_total b.created_at a.created_at⟩

instance : IsTotal JournalEntry byCreatedDescJ :=
  ⟨fun a b => Nat.le_total b.created_at a.created_at⟩

instance : IsTrans MoodEntry byCreatedDescM :=
  ⟨fun _ _ _ h1 h2 => Nat.le_trans h2 h1⟩

instance : IsTrans JournalEntry byCreatedDescJ :=
  ⟨fun _ _ _ h1 h2 => Nat.le_trans h2 h1⟩

/-! ## List reads (select, filter by owner, order, limit) -/

/-- fetchMoodEntries: select * from mood_entries where user_id = userId
order by created_at desc limit 7. -/
def fetchMoodEntries (userId : String) (s : Store) : List MoodEntry :=
  (List.insertionSort byCreatedDescM
    (s.mood_entries.filter (fun e => e.user_id == userId))).take 7

/-- fetchJournalEntries: select * from journal_entries where user_id = userId
order by created_at desc limit 5. -/
def fetchJournalEntries (userId : String) (s : Store) : List JournalEntry :=
  (List.insertionSort byCreatedDescJ
    (s.journal_entries.filter (fun e => e.user_id == userId))).take 5

/-- fetchAllJournalEntries (InsightsTab): select * from journal_entries
where user_id = userId and ai_insight is not null order by created_at desc,
with no limit clause. -/
def fetchAllJournalEntries (userId : String) (s : Store) : List JournalEntry :=
  List.insertionSort byCreatedDescJ
    (s.journal_entries.filter (fun e => e.user_id == userId && e.ai_insight.isSome))

/-! ## Deletes (match both the entry id and the requesting owner) -/

/-- handleDeleteMood (success path): delete from mood_entries
where id = id and user_id = userId. -/
def handleDeleteMood (id userId : String) (s : Store) : Store :=
  { s with mood_entries :=
      s.mood_entries.filter (fun e => !(e.id == id && e.user_id == userId)) }

/-- handleDeleteJournal (success path): delete from journal_entries
where id = id and user_id = userId. -/
def handleDeleteJournal (id userId : String) (s : Store) : Store :=
  { s with journal_entries :=
      s.journal_entries.filter (fun e => !(e.id == id && e.user_id == userId)) }

/-! ## Store operations observable from the workflow -/

/-- Payload of an insert into journal_entries. -/
structure JournalInsert where
  user_id : String
  content : String
  ai_insight : Option String

/-- Payload of an insert into mood_entries. -/
structure MoodInsert where
  user_id : String
  mood : String
  note : Option String

/-- Operations issued against the store and the oracle endpoint,
in chronological order of issue.  refetchNow is an immediate re-read of
the journal list; refetchAfter d is a re-read scheduled via setTimeout
with delay d milliseconds. -/
inductive Event where
  | insertJournal (p : JournalInsert)
  | insertMood (p : MoodInsert)
  | oracleCall (id content : String)
  | updateInsight (id : String) (v : Option String)
  | refetchNow
  | refetchAfter (delayMs : Nat)

deriving instance DecidableEq for JournalInsert
deriving instance DecidableEq for MoodInsert
deriving instance DecidableEq for Event

/-- True exactly on the oracleCall event (the fetch of the
generate-insight route). -/
def Event.isOracle : Event → Bool
  | .oracleCall _ _ => true
  | _ => false

/-- True exactly on insertJournal events. -/
def Event.isJournalIns : Event → Bool
  | .insertJournal _ => true
  | _ => false

/-- True exactly on updateInsight events. -/
def Event.isUpdateIns : Event → Bool
  | .updateInsight _ _ => true
  | _ => false

/-- The events issued strictly after the oracle call returned. -/
def postOracleEvents (tr : List Event) : List Event :=
  (tr.dropWhile (fun e => ! e.isOracle)).tail

/-- Effect of applying a successful journal insert: the store appends a row
with the generated id and timestamp and the payload fields. -/
def applyJournalInsert (p : JournalInsert) (newId : String) (ts : Nat) (s : Store) : Store :=
  { s with journal_entries :=
      s.journal_entries ++ [⟨newId, p.user_id, p.content, p.ai_insight, ts⟩] }

/-- Effect of applying a successful mood insert. -/
def applyMoodInsert (p : MoodInsert) (newId : String) (ts : Nat) (s : Store) : Store :=
  { s with mood_entries :=
      s.mood_entries ++ [⟨newId, p.user_id, p.mood, p.note, ts⟩] }

/-- Effect of update journal_entries set ai_insight = v where id = id:
every row whose id matches is rewritten, every other row is untouched. -/
def updateInsightById (v : Option String) (id : String) (s : Store) : Store :=
  { s with journal_entries :=
      s.journal_entries.map (fun e => if e.id = id then { e with ai_insight := v } else e) }

/-! ## The generate-insight API route -/

/-- Request body of the generate-insight route. -/
structure RequestBody where
  id : String
  content : String

/-- Outcome of the Gemini generateContent call, as observed by the route:
either the call (or reading its text) throws, or it yields a text. -/
inductive GeminiOutcome where
  | throwErr (msg : String)
  | ok (text : String)

/-- Result of one run of the route: HTTP status, the message field of the
JSON response, the resulting store state, and the store operations issued. -/
structure RouteOut where
  status : Nat
  msg : String
  store : Store
  events : List Event

deriving instance DecidableEq for RequestBody
deriving instance DecidableEq for GeminiOutcome
deriving instance DecidableEq for RouteOut

/-- POST /api/generate-insight.  body = none models a body that fails JSON
parsing; updErr = some m models the Supabase update returning an error
(in which case the update does not take effect). -/
def generateInsightPOST (body : Option RequestBody) (gem : GeminiOutcome)
    (updErr : Option String) (s : Store) : RouteOut :=
  match body with
  | none => ⟨400, "Failed to parse request body as JSON.", s, []⟩
  | some b =>
    if b.id = "" ∨ b.content = "" then
      ⟨400, "Missing or invalid journal entry ID or content.", s, []⟩
    else
      match gem with
      | .throwErr _ =>
        ⟨500, "Internal Server Error during AI generation or update.", s, []⟩
      | .ok text =>
        let aiInsight : Option String :=
          if text = "" ∨ jsTrim text = "" then none else some text
        match updErr with
        | some _ =>
          ⟨500, "Failed to update journal with AI insight in Supabase.", s,
            [Event.updateInsight b.id aiInsight]⟩
        | none =>
          ⟨200, "AI insight generated and updated successfully!",
            updateInsightById aiInsight b.id s,
            [Event.updateInsight b.id aiInsight]⟩

/-! ## The client submit handlers -/

/-- Outcome of the step-1 insert as seen by the client: the store errored,
or no row with an id came back from the select, or a row with the generated
id (and store-assigned timestamp) was returned. -/
inductive InsertOutcome where
  | storeError (msg : String)
  | noRow
  | ok (newId : String) (ts : Nat)

/-- Environment of one handleSubmitJournal run: the insert outcome, whether
the fetch of the route reaches the server (netOk; false models a thrown
network error with message netErrMsg), and the route's Gemini and update
outcomes. -/
structure SubmitParams where
  insert : InsertOutcome
  netOk : Bool
  netErrMsg : String
  gem : GeminiOutcome
  updErr : Option String

/-- Result of a submit handler run: resulting store state, the operations
issued, and the final user-visible message. -/
structure SubmitOut where
  store : Store
  trace : List Event
  message : String

deriving instance DecidableEq for InsertOutcome
deriving instance DecidableEq for SubmitParams
deriving instance DecidableEq for SubmitOut

/-- handleSubmitJournal: validate, insert the entry with ai_insight null,
re-read the list, call the generate-insight route, and on success schedule
a re-read after a 1000 ms delay. -/
def handleSubmitJournal (userId content : String) (pr : SubmitParams) (s : Store) : SubmitOut :=
  if jsTrim content = "" then ⟨s, [], "Journal entry cannot be empty."⟩
  else if userId = "" then ⟨s, [], "User not authenticated."⟩
  else
    let pl : JournalInsert := ⟨userId, jsTrim content, none⟩
    match pr.insert with
    | .storeError m => ⟨s, [.insertJournal pl], "Error: " ++ m⟩
    | .noRow =>
      ⟨s, [.insertJournal pl],
        "Error: Failed to retrieve new journal entry ID after insert."⟩
    | .ok newId ts =>
      let s1 := applyJournalInsert pl newId ts s
      let tr0 : List Event :=
        [.insertJournal pl, .refetchNow, .oracleCall newId (jsTrim content)]
      if pr.netOk then
        let r := generateInsightPOST (some ⟨newId, jsTrim content⟩) pr.gem pr.updErr s1
        if r.status = 200 then
          ⟨r.store, tr0 ++ r.events ++ [.refetchAfter 1000],
            "Journal entry saved and AI insight generated!"⟩
        else
          ⟨r.store, tr0 ++ r.events,
            "Journal entry saved. AI generation failed: AI generation API failed: " ++ r.msg⟩
      else
        ⟨s1, tr0, "Journal entry saved. AI generation failed: " ++ pr.netErrMsg⟩

/-- Outcome of the mood insert. -/
inductive MoodInsertOutcome where
  | storeError (msg : String)
  | ok (newId : String) (ts : Nat)

deriving instance DecidableEq for MoodInsertOutcome

/-- JavaScript falsiness of a nullable string (null or empty). -/
def jsFalsyStrOpt : Option String → Bool
  | none => true
  | some s => s == ""

/-- handleSubmitMood: validate, then insert the mood with the note trimmed,
and null when the trimmed note is empty. -/
def handleSubmitMood (userId : String) (selectedMood : Option String)
    (moodNote : String) (o : MoodInsertOutcome) (s : Store) : SubmitOut :=
  if jsFalsyStrOpt selectedMood then ⟨s, [], "Please select a mood."⟩
  else if userId = "" then ⟨s, [], "User not authenticated."⟩
  else
    let pl : MoodInsert :=
      ⟨userId, selectedMood.getD "",
        if jsTrim moodNote = "" then none else some (jsTrim moodNote)⟩
    match o with
    | .storeError m => ⟨s, [.insertMood pl], "Error: " ++ m⟩
    | .ok newId ts =>
      ⟨applyMoodInsert pl newId ts s, [.insertMood pl, .refetchNow],
        "Mood saved successfully!"⟩

/-! ## Derived predicates and concrete instances -/

/-- A string with no leading and no trailing whitespace. -/
def noEdgeWS (s : String) : Prop :=
  (∀ c, s.data.head? = some c → c.isWhitespace = false) ∧
  (∀ c, s.data.getLast? = some c → c.isWhitespace = false)

/-- The id generated by a successful step-1 insert is fresh: no existing
journal entry carries it.  (Trivially true when the insert fails.) -/
def freshOk (pr : SubmitParams) (s : Store) : Prop :=
  match pr.insert with
  | .ok newId _ => ∀ e ∈ s.journal_entries, e.id ≠ newId
  | _ => True

/-- Boolean test that s starts with the string pre. -/
def strStartsWith (pre s : String) : Bool := s.data.take pre.data.length == pre.data

/-- A store holding one journal entry whose annotation is already set. -/
def c1Store : Store := ⟨[], [⟨"e1", "u", "hello", some "old", 5⟩]⟩

/-- A run environment whose insert generates the fresh id e9. -/
def c1wParams : SubmitParams := ⟨.ok "e9" 3, true, "", .ok "great", none⟩

/-- A run environment whose oracle returns a whitespace-only text. -/
def c5Params : SubmitParams := ⟨.ok "e1" 7, true, "", .ok "   ", none⟩

/-- Result of submitting against the blank-oracle environment. -/
def c5Out : SubmitOut := handleSubmitJournal "u" "hello" c5Params ⟨[], []⟩

/-- A store with entries of two owners, one journal annotation already set. -/
def c6Store : Store :=
  ⟨[⟨"m1", "u", "Happy", none, 2⟩],
   [⟨"e1", "u", "day one", none, 1⟩, ⟨"e2", "v", "other", some "kept", 4⟩]⟩

/-- A store whose journal table holds k annotated entries of owner u. -/
def manyStore (k : Nat) : Store := ⟨[], List.replicate k ⟨"e", "u", "c", some "i", 0⟩⟩

/-- A small two-owner store for the list-read checks. -/
def c7Store : Store :=
  ⟨[⟨"m1", "u", "Happy", none, 3⟩, ⟨"m2", "w", "Sad", none, 5⟩],
   [⟨"j1", "u", "one", some "i1", 2⟩, ⟨"j2", "u", "two", none, 6⟩]⟩

/-- A small two-owner store for the delete checks. -/
def c8Store : Store :=
  ⟨[⟨"m1", "u1", "Happy", none, 3⟩, ⟨"m2", "u2", "Sad", none, 5⟩],
   [⟨"j1", "u1", "one", none, 2⟩, ⟨"j2", "u2", "two", some "i", 6⟩]⟩

/-! ## Lemmas about the trimming model -/

/-- The first character surviving dropWhile does not satisfy the predicate. -/
theorem headq_dropWhile_ws (l : List Char) (c : Char)
    (h : (l.dropWhile wsChar).head? = some c) : wsChar c = false := by
  induction l with
  | nil => simp [List.dropWhile] at h
  | cons a t ih =>
    rw [List.dropWhile_cons] at h
    by_cases ha : wsChar a = true
    · rw [if_pos ha] at h
      exact ih h
    · rw [if_neg ha] at h
      simp only [List.head?_cons, Option.some.injEq] at h
      subst h
      exact Bool.not_eq_true _ |>.mp ha

/-- Trimming on the right only removes trailing characters, so a nonempty
result keeps the original first character. -/
theorem headq_trimRight (m : List Char) (c : Char)
    (h : (trimRightList m).head? = some c) : m.head? = some c := by
  obtain ⟨t, ht⟩ := List.dropWhile_suffix (l := m.reverse) wsChar
  have hm : m = (m.reverse.dropWhile wsChar).reverse ++ t.reverse := by
    have := congrArg List.reverse ht
    simpa [List.reverse_append] using this.symm
  rw [trimRightList] at h
  cases hd : (m.reverse.dropWhile wsChar).reverse with
  | nil => rw [hd] at h; simp at h
  | cons a as =>
    rw [hd] at h
    simp only [List.head?_cons, Option.some.injEq] at h
    subst h
    rw [hm, hd]
    simp

/-- The last character of the right-trimmed list is not whitespace. -/
theorem getLastq_trimRight (m : List Char) (c : Char)
    (h : (trimRightList m).getLast? = some c) : wsChar c = false := by
  rw [trimRightList, List.getLast?_reverse] at h
  exact headq_dropWhile_ws _ _ h

/-- The trimming model never leaves leading or trailing whitespace. -/
theorem noEdgeWS_jsTrim (s : String) : noEdgeWS (jsTrim s) := by
  constructor
  · intro c hc
    have h1 : (trimLeftList s.data).head? = some c :=
      headq_trimRight _ _ hc
    exact headq_dropWhile_ws _ _ h1
  · intro c hc
    exact getLastq_trimRight _ _ hc

/-! ## Claims -/

/-- C1 counterexample: the generate-insight route, reached with the id of an
entry whose annotation is already set to old, unconditionally rewrites that
entry, replacing the annotation with the new oracle text. -/
theorem C1_counterexample :
    (generateInsightPOST (some ⟨"e1", "x"⟩) (GeminiOutcome.ok "new") none c1Store).store.journal_entries
      = [⟨"e1", "u", "hello", some "new", 5⟩]
    ∧ (some "new" : Option String) ≠ some "old" := by
  constructor
  · decide
  · decide

/-- C1 (amended): within the workflow as reachable, where each submission
targets the freshly generated id of its own step-1 insert, no run of
submitEntry overwrites or clears the annotation of any pre-existing entry:
every entry present before the run is present unchanged afterwards.  (The
route's update step itself does not guard an already-set annotation, as the
counterexample shows.) -/
theorem C1_theorem (userId content : String) (pr : SubmitParams) (s : Store)
    (hfresh : freshOk pr s) :
    ∀ e ∈ s.journal_entries,
      e ∈ (handleSubmitJournal userId content pr s).store.journal_entries := by
  intro e he
  by_cases hc : jsTrim content = ""
  · simp [handleSubmitJournal, hc]; exact he
  by_cases hu : userId = ""
  · simp [handleSubmitJournal, hc, hu]; exact he
  obtain ⟨ins, netOk, nmsg, gem, upd⟩ := pr
  cases ins with
  | storeError m => simp [handleSubmitJournal, hc, hu]; exact he
  | noRow => simp [handleSubmitJournal, hc, hu]; exact he
  | ok newId ts =>
    have hne : e.id ≠ newId := hfresh e he
    have hmem : e ∈ (applyJournalInsert ⟨userId, jsTrim content, none⟩ newId ts s).journal_entries := by
      simp [applyJournalInsert]
      exact Or.inl he
    by_cases hid : newId = "" <;>
      cases netOk <;> cases gem <;> cases upd <;>
        simp [handleSubmitJournal, generateInsightPOST, hc, hu, hid, updateInsightById,
          applyJournalInsert] <;>
      first
      | exact Or.inl he
      | (exact Or.inl ⟨e, he, by simp [hne]⟩)

/-- C1 witness: a concrete run on a fresh id leaves the already-annotated
entry untouched. -/
theorem C1_witness :
    freshOk c1wParams c1Store
    ∧ (⟨"e1", "u", "hello", some "old", 5⟩ : JournalEntry)
        ∈ (handleSubmitJournal "u" "hi" c1wParams c1Store).store.journal_entries :=
  ⟨by intro e he; simp only [c1Store, List.mem_singleton] at he; subst he; decide,
    C1_theorem "u" "hi" c1wParams c1Store
      (by intro e he; simp only [c1Store, List.mem_singleton] at he; subst he; decide)
      ⟨"e1", "u", "hello", some "old", 5⟩ (by decide)⟩

/-- C2: for every authenticated owner and non-empty content, one run of
handleSubmitJournal issues exactly one insert into journal_entries, with
ai_insight null, whatever the insert, network, oracle and update outcomes. -/
theorem C2_theorem (userId content : String) (pr : SubmitParams) (s : Store)
    (hc : jsTrim content ≠ "") (hu : userId ≠ "") :
    (handleSubmitJournal userId content pr s).trace.filter Event.isJournalIns
      = [Event.insertJournal ⟨userId, jsTrim content, none⟩] := by
  obtain ⟨ins, netOk, nmsg, gem, upd⟩ := pr
  cases ins with
  | storeError m =>
    simp [handleSubmitJournal, hc, hu, Event.isJournalIns, List.filter]
  | noRow =>
    simp [handleSubmitJournal, hc, hu, Event.isJournalIns, List.filter]
  | ok newId ts =>
    by_cases hid : newId = "" <;>
      cases netOk <;> cases gem <;> cases upd <;>
        simp [handleSubmitJournal, generateInsightPOST, hc, hu, hid,
          Event.isJournalIns, List.filter]

/-- C2 witness at a concrete submission. -/
theorem C2_witness :
    jsTrim "hi" ≠ "" ∧ ("u" : String) ≠ ""
    ∧ (handleSubmitJournal "u" "hi" ⟨.ok "e1" 7, true, "", .ok "x", none⟩
        ⟨[], []⟩).trace.filter Event.isJournalIns
        = [Event.insertJournal ⟨"u", jsTrim "hi", none⟩] :=
  ⟨by decide, by decide,
    C2_theorem "u" "hi" ⟨.ok "e1" 7, true, "", .ok "x", none⟩ ⟨[], []⟩
      (by decide) (by decide)⟩

/-- C3: a submission whose content trims to empty is rejected with the
validation message, with no store operation and no state change; and the
route, given an empty content, answers 400 with no store operation. -/
theorem C3_theorem (userId content : String) (pr : SubmitParams) (s : Store)
    (idArg : String) (gem : GeminiOutcome) (upd : Option String)
    (hc : jsTrim content = "") :
    handleSubmitJournal userId content pr s
        = ⟨s, [], "Journal entry cannot be empty."⟩
    ∧ (generateInsightPOST (some ⟨idArg, ""⟩) gem upd s).status = 400
    ∧ (generateInsightPOST (some ⟨idArg, ""⟩) gem upd s).store = s
    ∧ (generateInsightPOST (some ⟨idArg, ""⟩) gem upd s).events = [] := by
  refine ⟨?_, ?_, ?_, ?_⟩
  · simp [handleSubmitJournal, hc]
  all_goals cases gem <;> simp [generateInsightPOST]

/-- C3 witness at a whitespace-only submission. -/
theorem C3_witness :
    jsTrim "   " = ""
    ∧ handleSubmitJournal "u" "   " ⟨.ok "e1" 7, true, "", .ok "x", none⟩ ⟨[], []⟩
        = ⟨⟨[], []⟩, [], "Journal entry cannot be empty."⟩ :=
  ⟨by decide,
    ( C3_theorem "u" "   " ⟨.ok "e1" 7, true, "", .ok "x", none⟩ ⟨[], []⟩
      "e1" (.ok "x") none (by decide)).1⟩

/-- C4: when the step-1 insert errors, or returns no row with an id, the
whole operation fails with the store-write error message, and neither the
oracle call nor the annotation update is issued. -/
theorem C4_theorem (userId content : String) (pr : SubmitParams) (s : Store) (m : String)
    (hc : jsTrim content ≠ "") (hu : userId ≠ "") :
    (pr.insert = InsertOutcome.storeError m →
      handleSubmitJournal userId content pr s
        = ⟨s, [Event.insertJournal ⟨userId, jsTrim content, none⟩], "Error: " ++ m⟩)
    ∧ (pr.insert = InsertOutcome.noRow →
      (handleSubmitJournal userId content pr s).trace
          = [Event.insertJournal ⟨userId, jsTrim content, none⟩]
      ∧ (handleSubmitJournal userId content pr s).message
          = "Error: Failed to retrieve new journal entry ID after insert.") := by
  obtain ⟨ins, netOk, nmsg, gem, upd⟩ := pr
  constructor
  · intro h
    simp only at h
    subst h
    simp [handleSubmitJournal, hc, hu]
  · intro h
    simp only at h
    subst h
    simp [handleSubmitJournal, hc, hu]

/-- C4 witness at a concrete failing insert. -/
theorem C4_witness :
    jsTrim "hi" ≠ ""
    ∧ ("u" : String) ≠ ""
    ∧ ((⟨.storeError "db down", true, "", .ok "x", none⟩ : SubmitParams).insert
        = InsertOutcome.storeError "db down")
    ∧ handleSubmitJournal "u" "hi" ⟨.storeError "db down", true, "", .ok "x", none⟩ ⟨[], []⟩
        = ⟨⟨[], []⟩, [Event.insertJournal ⟨"u", jsTrim "hi", none⟩], "Error: " ++ "db down"⟩ :=
  ⟨by decide, by decide, by decide,
    ( C4_theorem "u" "hi" ⟨.storeError "db down", true, "", .ok "x", none⟩ ⟨[], []⟩
      "db down" (by decide) (by decide)).1 (by decide)⟩

/-- C5 counterexample: when the oracle returns a blank text the entry does
keep its annotation absent, but the route answers 200 and the user-visible
message claims the insight was generated, not that generation failed. -/
theorem C5_counterexample :
    c5Out.store.journal_entries.map JournalEntry.ai_insight = [none]
    ∧ c5Out.message = "Journal entry saved and AI insight generated!"
    ∧ strStartsWith "Journal entry saved. AI generation failed: " c5Out.message = false := by
  refine ⟨by decide, by decide, by decide⟩

/-- C5 (amended): on a network error, a route failure, or a failed update,
the inserted entry is kept untouched with annotation absent and the message
reports that the save succeeded while generation failed; on a blank oracle
text the entry likewise keeps annotation absent and is not rolled back, but
the message reports full success; in every case the oracle is called exactly
once (no retry). -/
theorem C5_theorem (userId content : String) (pr : SubmitParams) (s : Store)
    (newId : String) (ts : Nat)
    (hc : jsTrim content ≠ "") (hu : userId ≠ "")
    (hins : pr.insert = InsertOutcome.ok newId ts) (hid : newId ≠ "") :
    (pr.netOk = false →
        (handleSubmitJournal userId content pr s).store
            = applyJournalInsert ⟨userId, jsTrim content, none⟩ newId ts s
        ∧ (handleSubmitJournal userId content pr s).message
            = "Journal entry saved. AI generation failed: " ++ pr.netErrMsg)
    ∧ (∀ m, pr.gem = GeminiOutcome.throwErr m → pr.netOk = true →
        (handleSubmitJournal userId content pr s).store
            = applyJournalInsert ⟨userId, jsTrim content, none⟩ newId ts s
        ∧ (handleSubmitJournal userId content pr s).message
            = "Journal entry saved. AI generation failed: AI generation API failed: "
              ++ "Internal Server Error during AI generation or update.")
    ∧ (∀ t, pr.netOk = true → pr.gem = GeminiOutcome.ok t → pr.updErr.isSome = true →
        (handleSubmitJournal userId content pr s).store
            = applyJournalInsert ⟨userId, jsTrim content, none⟩ newId ts s
        ∧ (handleSubmitJournal userId content pr s).message
            = "Journal entry saved. AI generation failed: AI generation API failed: "
              ++ "Failed to update journal with AI insight in Supabase.")
    ∧ (∀ t, pr.netOk = true → pr.gem = GeminiOutcome.ok t → jsTrim t = "" → pr.updErr = none →
        (⟨newId, userId, jsTrim content, none, ts⟩ : JournalEntry)
            ∈ (handleSubmitJournal userId content pr s).store.journal_entries
        ∧ (handleSubmitJournal userId content pr s).store.journal_entries.length
            = s.journal_entries.length + 1
        ∧ (handleSubmitJournal userId content pr s).message
            = "Journal entry saved and AI insight generated!")
    ∧ (handleSubmitJournal userId content pr s).trace.filter Event.isOracle
        = [Event.oracleCall newId (jsTrim content)] := by
  obtain ⟨ins, netOk, nmsg, gem, upd⟩ := pr
  simp only [SubmitParams.mk.injEq] at hins ⊢
  subst hins
  refine ⟨?_, ?_, ?_, ?_, ?_⟩
  · intro hnet
    subst hnet
    simp [handleSubmitJournal, hc, hu]
  · intro m hgem hnet
    subst hgem; subst hnet
    simp [handleSubmitJournal, generateInsightPOST, hc, hu, hid]
  · intro t hnet hgem hupd
    subst hgem; subst hnet
    obtain ⟨u, hu2⟩ := Option.isSome_iff_exists.mp hupd
    subst hu2
    simp [handleSubmitJournal, generateInsightPOST, hc, hu, hid]
  · intro t hnet hgem hblank hupd
    subst hgem; subst hnet; subst hupd
    refine ⟨?_, ?_, ?_⟩
    · simp [handleSubmitJournal, generateInsightPOST, hc, hu, hid, hblank,
        updateInsightById, applyJournalInsert]
    · simp [handleSubmitJournal, generateInsightPOST, hc, hu, hid, hblank,
        updateInsightById, applyJournalInsert]
    · simp [handleSubmitJournal, generateInsightPOST, hc, hu, hid, hblank]
  · cases netOk <;> cases gem <;> cases upd <;>
      simp [handleSubmitJournal, generateInsightPOST, hc, hu, hid,
        Event.isOracle, List.filter]

/-- C5 witness at a concrete network failure. -/
theorem C5_witness :
    ((⟨.ok "e1" 7, false, "net down", .ok "x", none⟩ : SubmitParams).netOk = false)
    ∧ (handleSubmitJournal "u" "hi" ⟨.ok "e1" 7, false, "net down", .ok "x", none⟩
        ⟨[], []⟩).message
        = "Journal entry saved. AI generation failed: " ++ "net down" :=
  ⟨by decide,
    (( C5_theorem "u" "hi" ⟨.ok "e1" 7, false, "net down", .ok "x", none⟩ ⟨[], []⟩
        "e1" 7 (by decide) (by decide) (by decide) (by decide)).1 (by decide)).2⟩

/-- C6: when the oracle yields a non-blank text S for id I and the update
succeeds, the route answers 200, the entries with id I get annotation S,
every other journal entry and the whole mood collection are unchanged, and
no entry is added or removed. -/
theorem C6_theorem (I c S : String) (s : Store)
    (hI : I ≠ "") (hc : c ≠ "") (hS : jsTrim S ≠ "") :
    (generateInsightPOST (some ⟨I, c⟩) (GeminiOutcome.ok S) none s).status = 200
    ∧ (∀ e ∈ s.journal_entries, e.id = I →
        ({ e with ai_insight := some S } : JournalEntry)
          ∈ (generateInsightPOST (some ⟨I, c⟩) (GeminiOutcome.ok S) none s).store.journal_entries)
    ∧ (∀ e ∈ s.journal_entries, e.id ≠ I →
        e ∈ (generateInsightPOST (some ⟨I, c⟩) (GeminiOutcome.ok S) none s).store.journal_entries)
    ∧ (generateInsightPOST (some ⟨I, c⟩) (GeminiOutcome.ok S) none s).store.mood_entries
        = s.mood_entries
    ∧ (generateInsightPOST (some ⟨I, c⟩) (GeminiOutcome.ok S) none s).store.journal_entries.length
        = s.journal_entries.length := by
  have hS0 : S ≠ "" := by
    intro h; exact hS (by rw [h]; decide)
  refine ⟨?_, ?_, ?_, ?_, ?_⟩
  · simp [generateInsightPOST, hI, hc, hS0, hS]
  · intro e he hei
    simp [generateInsightPOST, hI, hc, hS0, hS, updateInsightById]
    exact ⟨e, he, by simp [hei]⟩
  · intro e he hei
    simp [generateInsightPOST, hI, hc, hS0, hS, updateInsightById]
    exact ⟨e, he, by simp [hei]⟩
  · simp [generateInsightPOST, hI, hc, hS0, hS, updateInsightById]
  · simp [generateInsightPOST, hI, hc, hS0, hS, updateInsightById]

/-- C6 witness: a concrete update annotates exactly the targeted entry and
keeps the other owner's entry unchanged. -/
theorem C6_witness :
    ("e1" : String) ≠ "" ∧ ("day one" : String) ≠ "" ∧ jsTrim "Take a walk." ≠ ""
    ∧ (⟨"e1", "u", "day one", some "Take a walk.", 1⟩ : JournalEntry)
        ∈ (generateInsightPOST (some ⟨"e1", "day one"⟩)
            (GeminiOutcome.ok "Take a walk.") none c6Store).store.journal_entries
    ∧ (⟨"e2", "v", "other", some "kept", 4⟩ : JournalEntry)
        ∈ (generateInsightPOST (some ⟨"e1", "day one"⟩)
            (GeminiOutcome.ok "Take a walk.") none c6Store).store.journal_entries :=
  ⟨by decide, by decide, by decide,
    (( C6_theorem "e1" "day one" "Take a walk." c6Store (by decide) (by decide) (by decide)).2.1
      ⟨"e1", "u", "day one", none, 1⟩ (by decide) (by decide)),
    (( C6_theorem "e1" "day one" "Take a walk." c6Store (by decide) (by decide) (by decide)).2.2.1
      ⟨"e2", "v", "other", some "kept", 4⟩ (by decide) (by decide))⟩

/-- C7 counterexample: the insights listing carries no result-count limit:
no bound caps its length over all stores. -/
theorem C7_counterexample :
    ¬ ∃ n : Nat, ∀ s : Store, (fetchAllJournalEntries "u" s).length ≤ n := by
  rintro ⟨n, h⟩
  have hlen : (fetchAllJournalEntries "u" (manyStore (n + 1))).length = n + 1 := by
    have hf : (manyStore (n + 1)).journal_entries.filter
        (fun e => e.user_id == "u" && e.ai_insight.isSome)
        = (manyStore (n + 1)).journal_entries := by
      apply List.filter_eq_self.mpr
      intro a ha
      have := List.eq_of_mem_replicate ha
      subst this
      decide
    rw [fetchAllJournalEntries, hf]
    rw [List.length_insertionSort]
    simp [manyStore]
  have := h (manyStore (n + 1))
  omega

/-- C7 (amended): the mood history read is owner-filtered, ordered by
creation time descending and limited to 7 rows; the journal history read
likewise with limit 5; the insights listing is owner-filtered (to entries
with an annotation) and ordered, but carries no result-count limit. -/
theorem C7_theorem (userId : String) (s : Store) :
    (∀ e ∈ fetchMoodEntries userId s, e.user_id = userId)
    ∧ List.Sorted byCreatedDescM (fetchMoodEntries userId s)
    ∧ (fetchMoodEntries userId s).length ≤ 7
    ∧ (∀ e ∈ fetchJournalEntries userId s, e.user_id = userId)
    ∧ List.Sorted byCreatedDescJ (fetchJournalEntries userId s)
    ∧ (fetchJournalEntries userId s).length ≤ 5
    ∧ (∀ e ∈ fetchAllJournalEntries userId s, e.user_id = userId ∧ e.ai_insight.isSome)
    ∧ List.Sorted byCreatedDescJ (fetchAllJournalEntries userId s) := by
  refine ⟨?_, ?_, ?_, ?_, ?_, ?_, ?_, ?_⟩
  · intro e he
    have h1 : e ∈ List.insertionSort byCreatedDescM
        (s.mood_entries.filter (fun e => e.user_id == userId)) :=
      List.take_sublist _ _ |>.mem he
    have h2 := (List.mem_insertionSort byCreatedDescM).mp h1
    have := List.mem_filter.mp h2
    simpa using this.2
  · exact List.Pairwise.sublist (List.take_sublist _ _)
      (List.sorted_insertionSort byCreatedDescM _)
  · exact List.length_take_le _ _
  · intro e he
    have h1 : e ∈ List.insertionSort byCreatedDescJ
        (s.journal_entries.filter (fun e => e.user_id == userId)) :=
      List.take_sublist _ _ |>.mem he
    have h2 := (List.mem_insertionSort byCreatedDescJ).mp h1
    have := List.mem_filter.mp h2
    simpa using this.2
  · exact List.Pairwise.sublist (List.take_sublist _ _)
      (List.sorted_insertionSort byCreatedDescJ _)
  · exact List.length_take_le _ _
  · intro e he
    have h2 := (List.mem_insertionSort byCreatedDescJ).mp he
    have := List.mem_filter.mp h2
    simpa using this.2
  · exact List.sorted_insertionSort byCreatedDescJ _

/-- C7 witness at a concrete store. -/
theorem C7_witness :
    (⟨"m1", "u", "Happy", none, 3⟩ : MoodEntry) ∈ fetchMoodEntries "u" c7Store
    ∧ (⟨"m1", "u", "Happy", none, 3⟩ : MoodEntry).user_id = "u"
    ∧ (fetchMoodEntries "u" c7Store).length ≤ 7
    ∧ (fetchJournalEntries "u" c7Store).length ≤ 5
    ∧ (⟨"j1", "u", "one", some "i1", 2⟩ : JournalEntry) ∈ fetchAllJournalEntries "u" c7Store
    ∧ (⟨"j1", "u", "one", some "i1", 2⟩ : JournalEntry).user_id = "u"
        ∧ (⟨"j1", "u", "one", some "i1", 2⟩ : JournalEntry).ai_insight.isSome :=
  ⟨by decide,
    ( C7_theorem "u" c7Store).1 ⟨"m1", "u", "Happy", none, 3⟩ (by decide),
    ( C7_theorem "u" c7Store).2.2.1,
    ( C7_theorem "u" c7Store).2.2.2.2.2.1,
    by decide,
    ( C7_theorem "u" c7Store).2.2.2.2.2.2.1 ⟨"j1", "u", "one", some "i1", 2⟩ (by decide)⟩

/-- C8: a delete matches both the entry id and the owner; afterwards no
list read of that owner returns the id, every other owner's entries are
preserved, and the other collection is untouched. -/
theorem C8_theorem (I userId : String) (s : Store) :
    (∀ e ∈ fetchMoodEntries userId (handleDeleteMood I userId s), e.id ≠ I)
    ∧ (∀ e ∈ fetchJournalEntries userId (handleDeleteJournal I userId s), e.id ≠ I)
    ∧ (∀ e ∈ fetchAllJournalEntries userId (handleDeleteJournal I userId s), e.id ≠ I)
    ∧ (∀ e ∈ s.mood_entries, e.user_id ≠ userId →
        e ∈ (handleDeleteMood I userId s).mood_entries)
    ∧ (∀ e ∈ s.journal_entries, e.user_id ≠ userId →
        e ∈ (handleDeleteJournal I userId s).journal_entries)
    ∧ (handleDeleteMood I userId s).journal_entries = s.journal_entries
    ∧ (handleDeleteJournal I userId s).mood_entries = s.mood_entries := by
  refine ⟨?_, ?_, ?_, ?_, ?_, rfl, rfl⟩
  · intro e he
    have h1 : e ∈ List.insertionSort byCreatedDescM
        ((handleDeleteMood I userId s).mood_entries.filter (fun e => e.user_id == userId)) :=
      List.take_sublist _ _ |>.mem he
    have h2 := (List.mem_insertionSort byCreatedDescM).mp h1
    have h3 := List.mem_filter.mp h2
    have huid : e.user_id = userId := by simpa using h3.2
    have h4 := List.mem_filter.mp h3.1
    have h5 := h4.2
    simp only [handleDeleteMood] at h5 ⊢
    intro hei
    simp [hei, huid] at h5
  · intro e he
    have h1 : e ∈ List.insertionSort byCreatedDescJ
        ((handleDeleteJournal I userId s).journal_entries.filter (fun e => e.user_id == userId)) :=
      List.take_sublist _ _ |>.mem he
    have h2 := (List.mem_insertionSort byCreatedDescJ).mp h1
    have h3 := List.mem_filter.mp h2
    have huid : e.user_id = userId := by simpa using h3.2
    have h4 := List.mem_filter.mp h3.1
    have h5 := h4.2
    intro hei
    simp [hei, huid] at h5
  · intro e he
    have h2 := (List.mem_insertionSort byCreatedDescJ).mp he
    have h3 := List.mem_filter.mp h2
    have huid : e.user_id = userId := by
      have := h3.2
      simp at this
      exact this.1
    have h4 := List.mem_filter.mp h3.1
    have h5 := h4.2
    intro hei
    simp [hei, huid] at h5
  · intro e he hne
    simp only [handleDeleteMood]
    apply List.mem_filter.mpr
    refine ⟨he, ?_⟩
    simp [hne]
  · intro e he hne
    simp only [handleDeleteJournal]
    apply List.mem_filter.mpr
    refine ⟨he, ?_⟩
    simp [hne]

/-- C8 witness at a concrete two-owner store. -/
theorem C8_witness :
    (⟨"m2", "u2", "Sad", none, 5⟩ : MoodEntry)
        ∈ fetchMoodEntries "u2" (handleDeleteMood "m1" "u1" c8Store)
    ∧ (⟨"m2", "u2", "Sad", none, 5⟩ : MoodEntry).user_id ≠ "u1"
    ∧ (⟨"m2", "u2", "Sad", none, 5⟩ : MoodEntry)
        ∈ (handleDeleteMood "m1" "u1" c8Store).mood_entries
    ∧ (⟨"j1", "u1", "one", none, 2⟩ : JournalEntry)
        ∈ fetchJournalEntries "u1" (handleDeleteJournal "j2" "u1" c8Store)
    ∧ (⟨"j1", "u1", "one", none, 2⟩ : JournalEntry).id ≠ "j2" :=
  ⟨by decide, by decide,
    ( C8_theorem "m1" "u1" c8Store).2.2.2.1 ⟨"m2", "u2", "Sad", none, 5⟩
      (by decide) (by decide),
    by decide,
    ( C8_theorem "j2" "u1" c8Store).2.1 ⟨"j1", "u1", "one", none, 2⟩ (by decide)⟩

/-- C9: in a successful run the only re-read scheduled anywhere with a delay
carries the fixed 1000 ms delay, the re-read following the oracle response is
that delayed one, and no immediate re-read happens after the response. -/
theorem C9_theorem (userId content : String) (pr : SubmitParams) (s : Store)
    (newId : String) (ts : Nat) (t : String)
    (hc : jsTrim content ≠ "") (hu : userId ≠ "") (hid : newId ≠ "")
    (hins : pr.insert = InsertOutcome.ok newId ts)
    (hnet : pr.netOk = true) (hgem : pr.gem = GeminiOutcome.ok t)
    (hupd : pr.updErr = none) :
    (∀ d, Event.refetchAfter d ∈ (handleSubmitJournal userId content pr s).trace → d = 1000)
    ∧ Event.refetchAfter 1000
        ∈ postOracleEvents (handleSubmitJournal userId content pr s).trace
    ∧ Event.refetchNow
        ∉ postOracleEvents (handleSubmitJournal userId content pr s).trace := by
  obtain ⟨ins, netOk, nmsg, gem, upd⟩ := pr
  subst hins; subst hnet; subst hgem; subst hupd
  have htr : (handleSubmitJournal userId content
      ⟨InsertOutcome.ok newId ts, true, nmsg, GeminiOutcome.ok t, none⟩ s).trace
      = [Event.insertJournal ⟨userId, jsTrim content, none⟩, Event.refetchNow,
         Event.oracleCall newId (jsTrim content),
         Event.updateInsight newId (if t = "" ∨ jsTrim t = "" then none else some t),
         Event.refetchAfter 1000] := by
    simp [handleSubmitJournal, generateInsightPOST, hc, hu, hid]
  rw [htr]
  refine ⟨?_, ?_, ?_⟩
  · intro d hd
    simp [Event.refetchAfter.injEq] at hd
    omega
  · simp [postOracleEvents, Event.isOracle, List.dropWhile]
  · simp [postOracleEvents, Event.isOracle, List.dropWhile]

/-- C9 witness at a concrete successful run. -/
theorem C9_witness :
    jsTrim "hi" ≠ "" ∧ ("u" : String) ≠ "" ∧ ("e1" : String) ≠ ""
    ∧ Event.refetchAfter 1000
        ∈ postOracleEvents (handleSubmitJournal "u" "hi"
            ⟨.ok "e1" 7, true, "", .ok "nice", none⟩ ⟨[], []⟩).trace :=
  ⟨by decide, by decide, by decide,
    ( C9_theorem "u" "hi" ⟨.ok "e1" 7, true, "", .ok "nice", none⟩ ⟨[], []⟩
      "e1" 7 "nice" (by decide) (by decide) (by decide) (by decide)
      (by decide) (by decide) (by decide)).2.1⟩

/-- C10: every mood insert stores the trimmed note, or null when the note
trims to empty, and never a note that is empty or has edge whitespace;
every journal insert stores exactly the trimmed content, which has no edge
whitespace. -/
theorem C10_theorem (userId mood moodNote content : String)
    (o : MoodInsertOutcome) (pr : SubmitParams) (s sJ : Store) :
    (∀ pl, Event.insertMood pl
          ∈ (handleSubmitMood userId (some mood) moodNote o s).trace →
        pl.note = (if jsTrim moodNote = "" then none else some (jsTrim moodNote))
        ∧ (∀ x, pl.note = some x → x ≠ "" ∧ noEdgeWS x))
    ∧ (∀ pl, Event.insertJournal pl
          ∈ (handleSubmitJournal userId content pr sJ).trace →
        pl.content = jsTrim content ∧ noEdgeWS pl.content) := by
  constructor
  · intro pl hpl
    have hplv : pl = ⟨userId, mood,
        if jsTrim moodNote = "" then none else some (jsTrim moodNote)⟩ := by
      by_cases hm : jsFalsyStrOpt (some mood) = true
      · simp [handleSubmitMood, hm] at hpl
      · by_cases hu : userId = ""
        · simp [handleSubmitMood, hm, hu] at hpl
        · cases o <;> simp [handleSubmitMood, hm, hu] at hpl <;> exact hpl
    subst hplv
    refine ⟨rfl, ?_⟩
    intro x hx
    by_cases hz : jsTrim moodNote = ""
    · simp [hz] at hx
    · simp only [hz, if_false, ite_false] at hx
      have hx2 : x = jsTrim moodNote := by
        simpa using hx.symm
      subst hx2
      exact ⟨hz, noEdgeWS_jsTrim moodNote⟩
  · intro pl hpl
    have hplv : pl = ⟨userId, jsTrim content, none⟩ := by
      by_cases hc : jsTrim content = ""
      · simp [handleSubmitJournal, hc] at hpl
      · by_cases hu : userId = ""
        · simp [handleSubmitJournal, hc, hu] at hpl
        · obtain ⟨ins, netOk, nmsg, gem, upd⟩ := pr
          cases ins with
          | storeError m => simp [handleSubmitJournal, hc, hu] at hpl; exact hpl
          | noRow => simp [handleSubmitJournal, hc, hu] at hpl; exact hpl
          | ok newId ts =>
            by_cases hid : newId = "" <;>
              cases netOk <;> cases gem <;> cases upd <;>
                simp [handleSubmitJournal, generateInsightPOST, hc, hu, hid] at hpl <;>
              exact hpl
    subst hplv
    exact ⟨rfl, noEdgeWS_jsTrim content⟩

/-- C10 witness at a concrete mood submission with an untrimmed note. -/
theorem C10_witness :
    (Event.insertMood ⟨"u", "Happy", some (jsTrim "  note  ")⟩
        ∈ (handleSubmitMood "u" (some "Happy") "  note  "
            (MoodInsertOutcome.ok "m1" 1) ⟨[], []⟩).trace)
    ∧ (MoodInsert.mk "u" "Happy" (some (jsTrim "  note  "))).note
        = (if jsTrim "  note  " = "" then none else some (jsTrim "  note  ")) :=
  ⟨by decide,
    (( C10_theorem "u" "Happy" "  note  " "x" (MoodInsertOutcome.ok "m1" 1)
        ⟨.ok "e1" 7, true, "", .ok "y", none⟩ ⟨[], []⟩ ⟨[], []⟩).1
      ⟨"u", "Happy", some (jsTrim "  note  ")⟩ (by decide)).1⟩

end MindWell
